import Mathlib

/-
  Shallow embedding of the partner-vehicles REST surface:
  - src/app/api/partners/[partnerId]/vehicles/route.ts  (GET and POST handlers)
  - src/app/cars/components/simple-car-form.tsx         (plate predicate, debounced lookup)

  JSON request-body values are modelled by an inductive of the shapes the
  handler inspects (string, number, boolean, null); an absent field is
  Option.none.  JavaScript numbers are modelled as integers, which covers
  every value the handler manipulates.  parseInt's NaN result is Option.none.
-/

namespace FleetApi

/-- A JSON value as the route handler sees it after req.json(). -/
inductive JsonVal where
  | str (s : String)
  | num (n : Int)
  | bool (b : Bool)
  | null
deriving DecidableEq, Repr

/-- JavaScript truthiness of a JSON value: falsy values are the empty
string, the number 0, false, and null. -/
def truthyVal : JsonVal → Bool
  | .str s => decide (s ≠ "")
  | .num n => decide (n ≠ 0)
  | .bool b => b
  | .null => false

/-- Truthiness of a possibly-absent field: an absent field (undefined) is falsy. -/
def truthy : Option JsonVal → Bool
  | none => false
  | some v => truthyVal v

/-- JavaScript `a || b` on a possibly-absent left operand, as used for the
defaults in the create call (`data.vehicleType || "SEDAN"` etc.). -/
def jsOr (a : Option JsonVal) (b : JsonVal) : JsonVal :=
  match a with
  | some v => if truthyVal v then v else b
  | none => b

/-- The whitespace characters parseInt strips from the front of its argument. -/
def isJsSpace (c : Char) : Bool :=
  c = ' ' || c = '\t' || c = '\n' || c = '\r'

/-- Leading decimal digits of a character list. -/
def leadingDigits (cs : List Char) : List Char :=
  cs.takeWhile Char.isDigit

/-- Drop one leading sign character if present. -/
def dropSign : List Char → List Char
  | [] => []
  | c :: cs => if c = '-' || c = '+' then cs else c :: cs

/-- The sign contributed by an optional leading minus. -/
def signOf (cs : List Char) : Int :=
  match cs with
  | [] => 1
  | c :: _ => if c = '-' then -1 else 1

/-- Accumulate the numeric value of a list of decimal digit characters. -/
def digitsToNat (acc : Nat) : List Char → Nat
  | [] => acc
  | c :: cs => digitsToNat (acc * 10 + (c.toNat - 48)) cs

/-- Model of JavaScript parseInt on a string: strip leading whitespace, read
an optional sign and then the longest run of leading decimal digits; if that
run is empty the result is NaN (none).  (The 0x-prefix branch of parseInt is
irrelevant to this codebase and not modelled.) -/
def parseIntStr (s : String) : Option Int :=
  let cs := s.data.dropWhile isJsSpace
  let ds := leadingDigits (dropSign cs)
  if ds.isEmpty then none else some (signOf cs * (digitsToNat 0 ds : Int))

/-- Model of parseInt applied to a possibly-absent JSON field.  A number is
first converted to its decimal string, from which parseInt recovers exactly
the same integer, so that case is collapsed; booleans, null and an absent
field (undefined) stringify to words without leading digits, giving NaN. -/
def parseIntJS : Option JsonVal → Option Int
  | some (.num n) => some n
  | some (.str s) => parseIntStr s
  | _ => none

/-- Model of the JavaScript Date constructor applied to a JSON value, kept
opaque: two Dates are equal exactly when they were built from equal inputs. -/
structure JsDate where
  ofVal : JsonVal
deriving DecidableEq, Repr

/-- A stored Partner row; only the id is consulted by the handlers. -/
structure Partner where
  id : String
deriving DecidableEq, Repr

/-- A stored Vehicle row, with the fields the POST handler writes.  createdAt
is the insertion clock used for the GET ordering. -/
structure Vehicle where
  make : JsonVal
  model : JsonVal
  year : Option Int
  licensePlate : JsonVal
  isForeignPlate : JsonVal
  color : Option JsonVal
  capacity : Option Int
  vehicleType : JsonVal
  status : JsonVal
  lastMaintenance : Option JsDate
  partnerId : String
  fuelType : Option JsonVal
  registrationDate : Option JsonVal
  createdAt : Nat
deriving DecidableEq, Repr

/-- The request body of the POST handler: every field the handler reads,
each possibly absent. -/
structure ReqBody where
  brand : Option JsonVal := none
  model : Option JsonVal := none
  year : Option JsonVal := none
  licensePlate : Option JsonVal := none
  isForeignPlate : Option JsonVal := none
  color : Option JsonVal := none
  capacity : Option JsonVal := none
  vehicleType : Option JsonVal := none
  status : Option JsonVal := none
  lastMaintenance : Option JsonVal := none
  fuelType : Option JsonVal := none
  registrationDate : Option JsonVal := none
deriving DecidableEq, Repr

/-- Database state: the partner and vehicle tables, plus the clock that
stamps createdAt on insertion. -/
structure DbState where
  partners : List Partner
  vehicles : List Vehicle
  nextTime : Nat
deriving DecidableEq, Repr

/-- Body of a JSON response: an error object, a single vehicle record, or a
vehicle array. -/
inductive RespBody where
  | error (msg : String)
  | vehicle (v : Vehicle)
  | vehicles (vs : List Vehicle)
deriving DecidableEq, Repr

/-- An HTTP response produced by NextResponse.json. -/
structure Resp where
  body : RespBody
  status : Nat
deriving DecidableEq, Repr

/-- Insert a vehicle into a list kept in descending createdAt order. -/
def insertByTime (v : Vehicle) : List Vehicle → List Vehicle
  | [] => [v]
  | w :: ws => if w.createdAt ≤ v.createdAt then v :: w :: ws else w :: insertByTime v ws

/-- Sort a vehicle list by createdAt descending (orderBy createdAt desc). -/
def sortByCreatedAtDesc (l : List Vehicle) : List Vehicle :=
  l.foldr insertByTime []

/-- db.vehicle.findMany with a partnerId filter and descending createdAt order. -/
def findManyByPartner (ds : DbState) (partnerId : String) : List Vehicle :=
  sortByCreatedAtDesc (ds.vehicles.filter (fun v => decide (v.partnerId = partnerId)))

/-- GET /api/partners/[partnerId]/vehicles: 401 without a user, 404 when the
partner id is unknown, otherwise the partner's vehicles ordered by creation
time descending. -/
def GET (userId : Option String) (partnerId : String) (ds : DbState) : Resp :=
  match userId with
  | none => { body := .error "Unauthorized", status := 401 }
  | some _ =>
    match ds.partners.find? (fun p => decide (p.id = partnerId)) with
    | none => { body := .error "Partner not found", status := 404 }
    | some _ => { body := .vehicles (findManyByPartner ds partnerId), status := 200 }

/-- The missingFields list the POST handler builds, in source order. -/
def missingFields (data : ReqBody) : List String :=
  (if truthy data.brand then [] else ["brand"]) ++
  (if truthy data.model then [] else ["model"]) ++
  (if truthy data.year then [] else ["year"]) ++
  (if truthy data.licensePlate then [] else ["licensePlate"])

/-- The vehicle record db.vehicle.create builds from the request body, with
the handler's coercions and defaults. -/
def mkVehicle (partnerId : String) (data : ReqBody) (ds : DbState) : Vehicle :=
  { make := data.brand.getD .null
    model := data.model.getD .null
    year := parseIntJS data.year
    licensePlate := data.licensePlate.getD .null
    isForeignPlate := jsOr data.isForeignPlate (.bool false)
    color := data.color
    capacity := parseIntJS data.capacity
    vehicleType := jsOr data.vehicleType (.str "SEDAN")
    status := jsOr data.status (.str "AVAILABLE")
    lastMaintenance :=
      if truthy data.lastMaintenance then some ⟨data.lastMaintenance.getD .null⟩ else none
    partnerId := partnerId
    fuelType := data.fuelType
    registrationDate := data.registrationDate
    createdAt := ds.nextTime }

/-- POST /api/partners/[partnerId]/vehicles: auth check, partner existence
check, required-field truthiness check, duplicate-plate check, then create;
returns the response together with the database state after the request. -/
def POST (userId : Option String) (partnerId : String) (data : ReqBody) (ds : DbState) :
    Resp × DbState :=
  match userId with
  | none => ({ body := .error "Unauthorized", status := 401 }, ds)
  | some _ =>
    match ds.partners.find? (fun p => decide (p.id = partnerId)) with
    | none => ({ body := .error "Partner not found", status := 404 }, ds)
    | some _ =>
      if !truthy data.brand || !truthy data.model || !truthy data.year ||
          !truthy data.licensePlate then
        ({ body := .error ("Missing required fields: " ++
            String.intercalate ", " (missingFields data)), status := 400 }, ds)
      else
        match ds.vehicles.find?
            (fun w => decide (w.licensePlate = data.licensePlate.getD .null)) with
        | some _ =>
          ({ body := .error "A vehicle with this license plate already exists",
             status := 400 }, ds)
        | none =>
          let v := mkVehicle partnerId data ds
          ({ body := .vehicle v, status := 200 },
           { ds with vehicles := v :: ds.vehicles, nextTime := ds.nextTime + 1 })

/-- ASCII uppercase letter, the character class [A-Z] of the plate regex. -/
def isAsciiUpper (c : Char) : Bool :=
  decide ('A' ≤ c) && decide (c ≤ 'Z')

/-- The form's plate-format predicate: the anchored regex
[A-Z][A-Z]-[0-9][0-9][0-9]-[A-Z][A-Z] of isFrenchPlateFormat, matching the
whole string. -/
def isFrenchPlateFormat (plate : String) : Bool :=
  match plate.data with
  | [a, b, h1, d1, d2, d3, h2, e, f] =>
    isAsciiUpper a && isAsciiUpper b && decide (h1 = '-') && d1.isDigit && d2.isDigit &&
      d3.isDigit && decide (h2 = '-') && isAsciiUpper e && isAsciiUpper f
  | _ => false

/-- The claim's description of the plate shape: two uppercase letters, a
hyphen, three digits, a hyphen, two uppercase letters. -/
def PlatePatternSpec (s : String) : Prop :=
  ∃ a b d1 d2 d3 e f : Char,
    s.data = [a, b, '-', d1, d2, d3, '-', e, f] ∧
    ('A' ≤ a ∧ a ≤ 'Z') ∧ ('A' ≤ b ∧ b ≤ 'Z') ∧
    d1.isDigit = true ∧ d2.isDigit = true ∧ d3.isDigit = true ∧
    ('A' ≤ e ∧ e ≤ 'Z') ∧ ('A' ≤ f ∧ f ≤ 'Z')

/-- One state of the form's (licensePlate, isFrenchPlate) inputs, stamped
with the time of the change that produced it; a trace of these models the
successive re-runs of the debounce effect. -/
structure FormEvent where
  time : Nat
  licensePlate : String
  isFrenchPlate : Bool
deriving DecidableEq, Repr

/-- The fixed quiet period of the debounce effect, in milliseconds. -/
def DEBOUNCE_DELAY : Nat := 1000

/-- The guard of the debounce effect: the toggle is on, the plate string is
truthy, and it matches the plate format. -/
def effectCondition (e : FormEvent) : Bool :=
  e.isFrenchPlate && truthyVal (.str e.licensePlate) && isFrenchPlateFormat e.licensePlate

/-- Whether the plate lookup fires for the i-th state of a chronological
trace: the guard holds there, and the timer is not cleared by a further
change within the quiet period (the effect cleanup clears the pending
timeout whenever the inputs change again). -/
def lookupFiresAt (trace : List FormEvent) (i : Nat) : Bool :=
  match trace.get? i with
  | none => false
  | some ev =>
    effectCondition ev &&
      (match trace.get? (i + 1) with
       | none => true
       | some nxt => decide (ev.time + DEBOUNCE_DELAY ≤ nxt.time))

/-- The descending-creation-time ordering used by the GET handler. -/
def laterOrEq (a b : Vehicle) : Prop := b.createdAt ≤ a.createdAt

/-- The four required fields of the POST body. -/
inductive ReqField where
  | brand
  | model
  | year
  | licensePlate
deriving DecidableEq, Repr

/-- Read one required field from the body. -/
def getReq : ReqField → ReqBody → Option JsonVal
  | .brand, b => b.brand
  | .model, b => b.model
  | .year, b => b.year
  | .licensePlate, b => b.licensePlate

/-- Replace one required field of the body. -/
def setReq : ReqField → Option JsonVal → ReqBody → ReqBody
  | .brand, v, b => { b with brand := v }
  | .model, v, b => { b with model := v }
  | .year, v, b => { b with year := v }
  | .licensePlate, v, b => { b with licensePlate := v }

/-- The name under which a required field appears in the error message. -/
def fieldName : ReqField → String
  | .brand => "brand"
  | .model => "model"
  | .year => "year"
  | .licensePlate => "licensePlate"

/-- The string has no leading integer: after optional whitespace and sign
there is no decimal digit, so parseInt yields NaN. -/
def noLeadingInt (s : String) : Bool :=
  (leadingDigits (dropSign (s.data.dropWhile isJsSpace))).isEmpty

/-- Concrete fixture: a partner row. -/
def partner1 : Partner := ⟨"p1"⟩

/-- Concrete fixture: a database with one partner and no vehicles. -/
def db0 : DbState := { partners := [partner1], vehicles := [], nextTime := 0 }

/-- Concrete fixture: a stored vehicle with plate AB-123-CD owned by p1. -/
def vstub : Vehicle :=
  { make := .str "Mercedes", model := .str "S-Class", year := some 2020,
    licensePlate := .str "AB-123-CD", isForeignPlate := .bool false, color := none,
    capacity := some 4, vehicleType := .str "SEDAN", status := .str "AVAILABLE",
    lastMaintenance := none, partnerId := "p1", fuelType := none,
    registrationDate := none, createdAt := 0 }

/-- Concrete fixture: a database with one partner and one vehicle. -/
def db1 : DbState := { partners := [partner1], vehicles := [vstub], nextTime := 1 }

/-- Concrete fixture: a fully valid body with year and capacity as strings. -/
def fullBody : ReqBody :=
  { brand := some (.str "Mercedes"), model := some (.str "S-Class"),
    year := some (.str "2022"), licensePlate := some (.str "AB-123-CD"),
    capacity := some (.str "4") }

/-- Concrete fixture: a valid body whose plate duplicates vstub's. -/
def dupBody : ReqBody :=
  { brand := some (.str "BMW"), model := some (.str "X5"),
    year := some (.num 2021), licensePlate := some (.str "AB-123-CD") }

/-- Concrete fixture: a body that omits brand and supplies model as the
empty string. -/
def c3Body : ReqBody :=
  { model := some (.str ""), year := some (.num 2022),
    licensePlate := some (.str "AB-123-CD") }

/-- Concrete fixture: a valid body that also supplies an empty
lastMaintenance string. -/
def c5Body : ReqBody :=
  { brand := some (.str "Mercedes"), model := some (.str "S-Class"),
    year := some (.str "2022"), licensePlate := some (.str "AB-123-CD"),
    lastMaintenance := some (.str "") }

/-- Concrete fixture: a body whose brand is supplied but falsy. -/
def falsyBody : ReqBody :=
  { brand := some (.str ""), model := some (.str "S-Class"),
    year := some (.num 2022), licensePlate := some (.str "AB-123-CD") }

/-- Concrete fixture: a valid body with no capacity field at all. -/
def noCapBody : ReqBody :=
  { brand := some (.str "Mercedes"), model := some (.str "S-Class"),
    year := some (.str "2022"), licensePlate := some (.str "AB-123-CD") }

theorem mem_insertByTime (v x : Vehicle) (l : List Vehicle) :
    x ∈ insertByTime v l ↔ x = v ∨ x ∈ l := by
  induction l with
  | nil => simp [insertByTime]
  | cons w ws ih =>
    by_cases h : w.createdAt ≤ v.createdAt
    · simp only [insertByTime, if_pos h, List.mem_cons]
    · simp only [insertByTime, if_neg h, List.mem_cons, ih]
      tauto

theorem perm_insertByTime (v : Vehicle) (l : List Vehicle) :
    List.Perm (insertByTime v l) (v :: l) := by
  induction l with
  | nil => simp [insertByTime]
  | cons w ws ih =>
    by_cases h : w.createdAt ≤ v.createdAt
    · simp [insertByTime, h]
    · simp only [insertByTime, if_neg h]
      exact (ih.cons w).trans (List.Perm.swap v w ws)

theorem perm_sortByCreatedAtDesc (l : List Vehicle) :
    List.Perm (sortByCreatedAtDesc l) l := by
  induction l with
  | nil => simp [sortByCreatedAtDesc]
  | cons a l ih =>
    have hs : sortByCreatedAtDesc (a :: l) = insertByTime a (sortByCreatedAtDesc l) := rfl
    rw [hs]
    exact (perm_insertByTime a _).trans (ih.cons a)

theorem pairwise_insertByTime (v : Vehicle) (l : List Vehicle)
    (h : l.Pairwise laterOrEq) : (insertByTime v l).Pairwise laterOrEq := by
  induction l with
  | nil => simp [insertByTime]
  | cons w ws ih =>
    rcases List.pairwise_cons.mp h with ⟨hw, hws⟩
    by_cases hc : w.createdAt ≤ v.createdAt
    · simp only [insertByTime, if_pos hc]
      refine List.Pairwise.cons ?_ h
      intro y hy
      rcases List.mem_cons.mp hy with rfl | hy
      · exact hc
      · exact le_trans (hw y hy) hc
    · simp only [insertByTime, if_neg hc]
      refine List.Pairwise.cons ?_ (ih hws)
      intro y hy
      rcases (mem_insertByTime v y ws).mp hy with rfl | hy
      · exact le_of_not_le hc
      · exact hw y hy

theorem pairwise_sortByCreatedAtDesc (l : List Vehicle) :
    (sortByCreatedAtDesc l).Pairwise laterOrEq := by
  induction l with
  | nil => simp [sortByCreatedAtDesc]
  | cons a l ih => exact pairwise_insertByTime a _ ih

/-- Inversion of a successful POST: a 200 response carrying a vehicle record
can only come from the success branch, pinning down every branch condition,
the created record and the new state. -/
theorem post_success_inversion (userId : Option String) (partnerId : String)
    (data : ReqBody) (ds ds2 : DbState) (v : Vehicle)
    (h : POST userId partnerId data ds = ({ body := .vehicle v, status := 200 }, ds2)) :
    (∃ u, userId = some u) ∧
    (∃ p, ds.partners.find? (fun p => decide (p.id = partnerId)) = some p) ∧
    truthy data.brand = true ∧ truthy data.model = true ∧ truthy data.year = true ∧
    truthy data.licensePlate = true ∧
    ds.vehicles.find?
      (fun w => decide (w.licensePlate = data.licensePlate.getD .null)) = none ∧
    v = mkVehicle partnerId data ds ∧
    ds2 = { ds with vehicles := mkVehicle partnerId data ds :: ds.vehicles,
                    nextTime := ds.nextTime + 1 } := by
  unfold POST at h
  split at h
  · simp at h
  · next u =>
    split at h
    · simp at h
    · next p hp =>
      split at h
      · simp at h
      · next hcond =>
        split at h
        · next w hw => simp at h
        · next hnone =>
          have hb : truthy data.brand = true := by
            cases hbb : truthy data.brand
            · exact absurd (by simp [hbb]) hcond
            · rfl
          have hm : truthy data.model = true := by
            cases hbb : truthy data.model
            · exact absurd (by simp [hbb]) hcond
            · rfl
          have hy : truthy data.year = true := by
            cases hbb : truthy data.year
            · exact absurd (by simp [hbb]) hcond
            · rfl
          have hl : truthy data.licensePlate = true := by
            cases hbb : truthy data.licensePlate
            · exact absurd (by simp [hbb]) hcond
            · rfl
          simp only [Prod.mk.injEq, Resp.mk.injEq, RespBody.vehicle.injEq] at h
          exact ⟨⟨u, rfl⟩, ⟨p, hp⟩, hb, hm, hy, hl, hnone, h.1.1.symm, h.2.symm⟩

theorem partner_find_none (partnerId : String) (ds : DbState)
    (hnone : ∀ p ∈ ds.partners, p.id ≠ partnerId) :
    ds.partners.find? (fun p => decide (p.id = partnerId)) = none := by
  rw [List.find?_eq_none]
  intro p hp
  simp [hnone p hp]

theorem partner_find_some (partnerId : String) (ds : DbState)
    (hex : ∃ p ∈ ds.partners, p.id = partnerId) :
    ∃ q, ds.partners.find? (fun p => decide (p.id = partnerId)) = some q := by
  obtain ⟨p, hp, hid⟩ := hex
  have hs : (ds.partners.find? (fun p => decide (p.id = partnerId))).isSome = true := by
    rw [List.find?_isSome]
    exact ⟨p, hp, by simp [hid]⟩
  exact Option.isSome_iff_exists.mp hs

theorem post_partner_absent (u : String) (partnerId : String) (data : ReqBody) (ds : DbState)
    (hfind : ds.partners.find? (fun p => decide (p.id = partnerId)) = none) :
    POST (some u) partnerId data ds =
      ({ body := .error "Partner not found", status := 404 }, ds) := by
  simp [POST, hfind]

theorem post_validation_failed (u : String) (partnerId : String) (data : ReqBody)
    (ds : DbState) (q : Partner)
    (hq : ds.partners.find? (fun p => decide (p.id = partnerId)) = some q)
    (hcond : (!truthy data.brand || !truthy data.model || !truthy data.year ||
        !truthy data.licensePlate) = true) :
    POST (some u) partnerId data ds =
      ({ body := .error ("Missing required fields: " ++
          String.intercalate ", " (missingFields data)), status := 400 }, ds) := by
  simp [POST, hq, hcond]

theorem post_success_compute (u : String) (partnerId : String) (data : ReqBody)
    (ds : DbState) (q : Partner)
    (hq : ds.partners.find? (fun p => decide (p.id = partnerId)) = some q)
    (hb : truthy data.brand = true) (hm : truthy data.model = true)
    (hy : truthy data.year = true) (hl : truthy data.licensePlate = true)
    (hnone : ds.vehicles.find?
      (fun w => decide (w.licensePlate = data.licensePlate.getD .null)) = none) :
    POST (some u) partnerId data ds =
      ({ body := .vehicle (mkVehicle partnerId data ds), status := 200 },
       { ds with vehicles := mkVehicle partnerId data ds :: ds.vehicles,
                 nextTime := ds.nextTime + 1 }) := by
  simp [POST, hq, hb, hm, hy, hl, hnone]

theorem validation_cond_of_falsy (data : ReqBody) (f : ReqField)
    (hf : truthy (getReq f data) = false) :
    (!truthy data.brand || !truthy data.model || !truthy data.year ||
      !truthy data.licensePlate) = true := by
  cases f <;> simp_all [getReq]

theorem mem_missingFields_iff (data : ReqBody) (f : ReqField) :
    fieldName f ∈ missingFields data ↔ truthy (getReq f data) = false := by
  cases f <;>
    cases hb : truthy data.brand <;>
    cases hm : truthy data.model <;>
    cases hy : truthy data.year <;>
    cases hl : truthy data.licensePlate <;>
      simp_all [missingFields, getReq, fieldName]

theorem getReq_setReq_same (f : ReqField) (v : Option JsonVal) (data : ReqBody) :
    getReq f (setReq f v data) = v := by
  cases f <;> rfl

theorem missingFields_setReq_none (f : ReqField) (data : ReqBody) (w : JsonVal)
    (hpres : getReq f data = some w) (hfalsy : truthyVal w = false) :
    missingFields (setReq f none data) = missingFields data := by
  cases f <;> simp_all [getReq, setReq, missingFields, truthy]

theorem not_space_of_digit (c : Char) (h : c.isDigit = true) : isJsSpace c = false := by
  by_contra hcon
  rw [Bool.not_eq_false] at hcon
  unfold isJsSpace at hcon
  simp only [Bool.or_eq_true, decide_eq_true_eq] at hcon
  rcases hcon with ((rfl | rfl) | rfl) | rfl <;> exact absurd h (by decide)

theorem takeWhile_digits (l : List Char) (h : ∀ c ∈ l, c.isDigit = true) :
    leadingDigits l = l := by
  induction l with
  | nil => rfl
  | cons c cs ih =>
    have hc := h c (List.mem_cons_self c cs)
    have ih2 := ih (fun x hx => h x (List.mem_cons_of_mem c hx))
    simp only [leadingDigits] at ih2 ⊢
    rw [List.takeWhile_cons, hc]
    simp [ih2]

theorem parseIntStr_digits (s : String) (hne : s.data ≠ [])
    (hdig : ∀ c ∈ s.data, c.isDigit = true) :
    parseIntStr s = some (digitsToNat 0 s.data) := by
  obtain ⟨c, cs, hd⟩ : ∃ c cs, s.data = c :: cs := by
    cases hcs : s.data with
    | nil => exact absurd hcs hne
    | cons a l => exact ⟨a, l, rfl⟩
  have hc : c.isDigit = true := hdig c (by rw [hd]; exact List.mem_cons_self c cs)
  have h1 : c ≠ '-' := by rintro rfl; exact absurd hc (by decide)
  have h2 : c ≠ '+' := by rintro rfl; exact absurd hc (by decide)
  have hdrop : s.data.dropWhile isJsSpace = c :: cs := by
    rw [hd, List.dropWhile_cons, not_space_of_digit c hc]
    simp
  have hds : dropSign (c :: cs) = c :: cs := by
    simp [dropSign, h1, h2]
  have hld : leadingDigits (c :: cs) = c :: cs :=
    takeWhile_digits _ (by rw [← hd]; exact hdig)
  have hsign : signOf (c :: cs) = 1 := by simp [signOf, h1]
  simp only [parseIntStr]
  rw [hdrop, hds, hld, hsign, hd]
  simp

theorem parseIntStr_eq_none (s : String) (h : noLeadingInt s = true) :
    parseIntStr s = none := by
  simp only [noLeadingInt] at h
  simp only [parseIntStr]
  simp [h]

theorem plate_format_iff (s : String) :
    isFrenchPlateFormat s = true ↔ PlatePatternSpec s := by
  constructor
  · intro h
    unfold isFrenchPlateFormat at h
    split at h
    · next a b h1 d1 d2 d3 h2 e f heq =>
      simp only [Bool.and_eq_true, decide_eq_true_eq] at h
      obtain ⟨⟨⟨⟨⟨⟨⟨⟨ha, hb⟩, hh1⟩, hd1⟩, hd2⟩, hd3⟩, hh2⟩, he⟩, hf⟩ := h
      subst hh1
      subst hh2
      simp only [isAsciiUpper, Bool.and_eq_true, decide_eq_true_eq] at ha hb he hf
      exact ⟨a, b, d1, d2, d3, e, f, heq, ha, hb, hd1, hd2, hd3, he, hf⟩
    · simp at h
  · rintro ⟨a, b, d1, d2, d3, e, f, heq, ha, hb, hd1, hd2, hd3, he, hf⟩
    unfold isFrenchPlateFormat
    rw [heq]
    simp [isAsciiUpper, ha.1, ha.2, hb.1, hb.2, hd1, hd2, hd3, he.1, he.2, hf.1, hf.2]

/-- C2: for every authenticated POST whose partnerId does not identify an
existing partner, the endpoint returns status 404 with a Partner-not-found
error and performs no write: the database state, and in particular the
stored set of vehicles, is exactly the same after the request as before. -/
theorem c2_post_nonexistent_partner_404 (u partnerId : String) (data : ReqBody)
    (ds : DbState) (hnone : ∀ p ∈ ds.partners, p.id ≠ partnerId) :
    POST (some u) partnerId data ds =
      ({ body := .error "Partner not found", status := 404 }, ds) :=
  post_partner_absent u partnerId data ds (partner_find_none partnerId ds hnone)

/-- Witness for C2: an authenticated POST of a valid body for the unknown
partner id p2 against a store holding only partner p1 returns 404 with the
state unchanged. -/
theorem c2_witness :
    POST (some "u") "p2" fullBody db0 =
      ({ body := .error "Partner not found", status := 404 }, db0) :=
  c2_post_nonexistent_partner_404 "u" "p2" fullBody db0 (by decide)

/-- C6: for every authenticated GET for an existing partner the endpoint
returns status 200 with exactly the vehicles whose partner reference equals
that partner's id (a permutation of the filtered table, with membership
characterized), ordered by creation time descending; for a partner with
zero vehicles it returns the empty array, not an error. -/
theorem c6_get_lists_partner_vehicles (u partnerId : String) (ds : DbState)
    (hex : ∃ p ∈ ds.partners, p.id = partnerId) :
    GET (some u) partnerId ds =
        { body := .vehicles (findManyByPartner ds partnerId), status := 200 } ∧
      List.Perm (findManyByPartner ds partnerId)
        (ds.vehicles.filter (fun v => decide (v.partnerId = partnerId))) ∧
      (∀ v, v ∈ findManyByPartner ds partnerId ↔ v ∈ ds.vehicles ∧ v.partnerId = partnerId) ∧
      (findManyByPartner ds partnerId).Pairwise laterOrEq ∧
      ((∀ v ∈ ds.vehicles, v.partnerId ≠ partnerId) → findManyByPartner ds partnerId = []) := by
  obtain ⟨q, hq⟩ := partner_find_some partnerId ds hex
  refine ⟨by simp [GET, hq], perm_sortByCreatedAtDesc _, ?_,
    pairwise_sortByCreatedAtDesc _, ?_⟩
  · intro v
    rw [show findManyByPartner ds partnerId =
      sortByCreatedAtDesc (ds.vehicles.filter (fun v => decide (v.partnerId = partnerId)))
      from rfl, (perm_sortByCreatedAtDesc _).mem_iff]
    simp [List.mem_filter]
  · intro hno
    have hfil : ds.vehicles.filter (fun v => decide (v.partnerId = partnerId)) = [] := by
      rw [List.filter_eq_nil_iff]
      intro v hv
      simp [hno v hv]
    unfold findManyByPartner
    rw [hfil]
    rfl

/-- Witness for C6: an authenticated GET for the existing partner p1
returns 200 with the partner's sorted vehicle list. -/
theorem c6_witness :
    GET (some "u") "p1" db1 =
      { body := .vehicles (findManyByPartner db1 "p1"), status := 200 } :=
  (c6_get_lists_partner_vehicles "u" "p1" db1 (by decide)).1

/-- C8: the partner-existence check precedes field validation and the
duplicate-plate check: an authenticated POST naming a non-existent partner
returns 404 with no write, whatever the body contains; and any 400 response
from POST implies the partner exists in the store it was run against. -/
theorem c8_partner_check_precedes (u partnerId : String) (data : ReqBody) (ds : DbState)
    (hnone : ∀ p ∈ ds.partners, p.id ≠ partnerId) :
    POST (some u) partnerId data ds =
        ({ body := .error "Partner not found", status := 404 }, ds) ∧
      ∀ (uid : Option String) (pid : String) (b : ReqBody) (ds2 : DbState),
        (POST uid pid b ds2).1.status = 400 → ∃ p ∈ ds2.partners, p.id = pid := by
  refine ⟨post_partner_absent u partnerId data ds (partner_find_none partnerId ds hnone), ?_⟩
  intro uid pid b ds2 hst
  unfold POST at hst
  split at hst
  · simp at hst
  · next u2 =>
    split at hst
    · simp at hst
    · next p hp =>
      refine ⟨p, List.mem_of_find?_eq_some hp, ?_⟩
      have hpt := List.find?_some hp
      simpa using hpt

/-- Witness for C8: an authenticated POST carrying a duplicate plate for the
unknown partner id ghost returns 404, not either 400 branch. -/
theorem c8_witness :
    POST (some "u") "ghost" dupBody db1 =
      ({ body := .error "Partner not found", status := 404 }, db1) :=
  (c8_partner_check_precedes "u" "ghost" dupBody db1 (by decide)).1

/-- C1 counterexample: a POST whose body's licensePlate equals the plate of
a stored vehicle does not always return the duplicate-plate 400 — when the
partner id is unknown the response is 404 with a different message, so the
claim fails as stated for this concrete request. -/
theorem c1_counterexample :
    (∃ w ∈ db1.vehicles, w.licensePlate = dupBody.licensePlate.getD .null) ∧
      (POST (some "u") "ghost" dupBody db1).1 =
        { body := .error "Partner not found", status := 404 } ∧
      ({ body := .error "Partner not found", status := 404 } : Resp) ≠
        { body := .error "A vehicle with this license plate already exists",
          status := 400 } := by
  refine ⟨⟨vstub, by simp [db1], rfl⟩, rfl, by decide⟩

/-- C1 (amended): for every authenticated POST for an existing partner whose
body passes required-field validation and whose licensePlate equals the
license plate of some stored vehicle (for any partner), the endpoint returns
status 400 with the duplicate-plate error message and leaves the database
state, in particular the stored set of vehicles, unchanged. -/
theorem c1_duplicate_plate_rejected (u partnerId : String) (data : ReqBody) (ds : DbState)
    (hpartner : ∃ p ∈ ds.partners, p.id = partnerId)
    (hb : truthy data.brand = true) (hm : truthy data.model = true)
    (hy : truthy data.year = true) (hl : truthy data.licensePlate = true)
    (hdup : ∃ w ∈ ds.vehicles, w.licensePlate = data.licensePlate.getD .null) :
    POST (some u) partnerId data ds =
      ({ body := .error "A vehicle with this license plate already exists",
         status := 400 }, ds) := by
  obtain ⟨q, hq⟩ := partner_find_some partnerId ds hpartner
  have hex : (ds.vehicles.find?
      (fun w => decide (w.licensePlate = data.licensePlate.getD .null))).isSome = true := by
    rw [List.find?_isSome]
    obtain ⟨w, hwmem, hwlp⟩ := hdup
    exact ⟨w, hwmem, by simp [hwlp]⟩
  obtain ⟨w2, hw2⟩ := Option.isSome_iff_exists.mp hex
  simp [POST, hq, hb, hm, hy, hl, hw2]

/-- Witness for the amended C1: repeating the fixture vehicle's plate in an
authenticated, fully valid POST for the existing partner p1 returns the
duplicate-plate 400 and leaves the store unchanged. -/
theorem c1_witness :
    POST (some "u") "p1" dupBody db1 =
      ({ body := .error "A vehicle with this license plate already exists",
         status := 400 }, db1) :=
  c1_duplicate_plate_rejected "u" "p1" dupBody db1 (by decide) (by decide) (by decide)
    (by decide) (by decide) (by decide)

/-- C3 counterexample: a body that omits brand and supplies model as the
empty string gets a 400 whose message lists model as missing even though
model was supplied, so the message does not list exactly the omitted
fields. -/
theorem c3_counterexample :
    c3Body.brand = none ∧ c3Body.model = some (.str "") ∧
      (POST (some "u") "p1" c3Body db0).1 =
        { body := .error "Missing required fields: brand, model", status := 400 } ∧
      ("Missing required fields: brand, model" : String) ≠
        "Missing required fields: brand" := by
  refine ⟨rfl, rfl, by decide, by decide⟩

/-- C3 (amended): for every authenticated POST for an existing partner whose
body omits any of brand, model, year, licensePlate, the endpoint returns
status 400 with an error message listing exactly the fields whose values are
absent or falsy — every omitted field is listed, a field supplied with a
truthy value is not listed, but a field supplied with a falsy value is also
listed — and no vehicle is created. -/
theorem c3_missing_fields_400 (u partnerId : String) (data : ReqBody) (ds : DbState)
    (hpartner : ∃ p ∈ ds.partners, p.id = partnerId)
    (homit : ∃ f : ReqField, getReq f data = none) :
    POST (some u) partnerId data ds =
        ({ body := .error ("Missing required fields: " ++
            String.intercalate ", " (missingFields data)), status := 400 }, ds) ∧
      ∀ f : ReqField, fieldName f ∈ missingFields data ↔ truthy (getReq f data) = false := by
  obtain ⟨q, hq⟩ := partner_find_some partnerId ds hpartner
  obtain ⟨f, hf⟩ := homit
  have hfb : truthy (getReq f data) = false := by rw [hf]; rfl
  exact ⟨post_validation_failed u partnerId data ds q hq
      (validation_cond_of_falsy data f hfb),
    fun g => mem_missingFields_iff data g⟩

/-- Witness for the amended C3: the fixture body omitting brand gets a 400
whose message is built from exactly the absent-or-falsy field names. -/
theorem c3_witness :
    POST (some "u") "p1" c3Body db0 =
      ({ body := .error ("Missing required fields: " ++
          String.intercalate ", " (missingFields c3Body)), status := 400 }, db0) :=
  (c3_missing_fields_400 "u" "p1" c3Body db0 (by decide) ⟨.brand, rfl⟩).1

/-- C4: for every POST that succeeds (200 with a created record), the year
and capacity of the returned record are parseInt of the submitted values;
parseInt maps an integer-valued number to that integer and a pure digit
string to its decimal value, so the record carries the integer value of the
submission whether it was a string or a number. -/
theorem c4_year_capacity_coerced (userId : Option String) (partnerId : String)
    (data : ReqBody) (ds ds2 : DbState) (v : Vehicle)
    (h : POST userId partnerId data ds = ({ body := .vehicle v, status := 200 }, ds2)) :
    v.year = parseIntJS data.year ∧ v.capacity = parseIntJS data.capacity ∧
      (∀ n : Int, parseIntJS (some (.num n)) = some n) ∧
      (∀ s : String, s.data ≠ [] → (∀ c ∈ s.data, c.isDigit = true) →
        parseIntJS (some (.str s)) = some (digitsToNat 0 s.data)) := by
  obtain ⟨-, -, -, -, -, -, -, hv, -⟩ := post_success_inversion _ _ _ _ _ _ h
  subst hv
  exact ⟨rfl, rfl, fun n => rfl, fun s hne hdig => by
    simp [parseIntJS, parseIntStr_digits s hne hdig]⟩

/-- Witness for C4: the fixture body submits year and capacity as the
strings 2022 and 4, and the created record carries the integers 2022 and 4. -/
theorem c4_witness :
    (mkVehicle "p1" fullBody db0).year = parseIntJS fullBody.year ∧
      parseIntJS fullBody.year = some 2022 ∧
      (mkVehicle "p1" fullBody db0).capacity = parseIntJS fullBody.capacity ∧
      parseIntJS fullBody.capacity = some 4 := by
  have h := c4_year_capacity_coerced (some "u") "p1" fullBody db0 _ _ rfl
  exact ⟨h.1, by decide, h.2.1, by decide⟩

/-- C5 counterexample: a successful POST supplying lastMaintenance as the
empty string stores null rather than the timestamp parsed from the supplied
string, so the claim's lastMaintenance clause fails at this concrete input. -/
theorem c5_counterexample :
    (POST (some "u") "p1" c5Body db0).1 =
        { body := .vehicle (mkVehicle "p1" c5Body db0), status := 200 } ∧
      c5Body.lastMaintenance = some (.str "") ∧
      (mkVehicle "p1" c5Body db0).lastMaintenance = none ∧
      some (JsDate.mk (.str "")) ≠ (none : Option JsDate) := by
  refine ⟨by decide, rfl, by decide, by decide⟩

/-- C5 (amended): for every POST that succeeds, the created record has
vehicleType SEDAN when the body supplies no vehicleType, status AVAILABLE
when it supplies no status, foreign-plate flag false when it supplies no
isForeignPlate, and lastMaintenance equal to the timestamp parsed from the
body's lastMaintenance value when a truthy one is supplied, and null
otherwise — including when the supplied value is falsy, such as the empty
string. -/
theorem c5_success_defaults (userId : Option String) (partnerId : String)
    (data : ReqBody) (ds ds2 : DbState) (v : Vehicle)
    (h : POST userId partnerId data ds = ({ body := .vehicle v, status := 200 }, ds2)) :
    (data.vehicleType = none → v.vehicleType = .str "SEDAN") ∧
      (data.status = none → v.status = .str "AVAILABLE") ∧
      (data.isForeignPlate = none → v.isForeignPlate = .bool false) ∧
      (∀ w, data.lastMaintenance = some w → truthyVal w = true →
        v.lastMaintenance = some ⟨w⟩) ∧
      ((data.lastMaintenance = none ∨
          ∃ w, data.lastMaintenance = some w ∧ truthyVal w = false) →
        v.lastMaintenance = none) := by
  obtain ⟨-, -, -, -, -, -, -, hv, -⟩ := post_success_inversion _ _ _ _ _ _ h
  subst hv
  refine ⟨?_, ?_, ?_, ?_, ?_⟩
  · intro h0; simp [mkVehicle, jsOr, h0]
  · intro h0; simp [mkVehicle, jsOr, h0]
  · intro h0; simp [mkVehicle, jsOr, h0]
  · intro w hw ht; simp [mkVehicle, truthy, hw, ht]
  · rintro (h0 | ⟨w, hw, hfw⟩)
    · simp [mkVehicle, truthy, h0]
    · simp [mkVehicle, truthy, hw, hfw]

/-- Witness for the amended C5: the fixture body supplies none of
vehicleType, status, isForeignPlate, lastMaintenance, and the created record
carries SEDAN, AVAILABLE, false and null. -/
theorem c5_witness :
    (mkVehicle "p1" fullBody db0).vehicleType = .str "SEDAN" ∧
      (mkVehicle "p1" fullBody db0).status = .str "AVAILABLE" ∧
      (mkVehicle "p1" fullBody db0).isForeignPlate = .bool false ∧
      (mkVehicle "p1" fullBody db0).lastMaintenance = none := by
  have h := c5_success_defaults (some "u") "p1" fullBody db0 _ _ rfl
  exact ⟨h.1 rfl, h.2.1 rfl, h.2.2.1 rfl, h.2.2.2.2 (Or.inl rfl)⟩

/-- C9: the required-field validation tests falsiness, not presence — a body
whose brand, model, year or licensePlate is present but falsy gets a 400
listing that field as missing, with exactly the same response and state as
if the field had been omitted. -/
theorem c9_falsy_field_treated_missing (u partnerId : String) (data : ReqBody)
    (ds : DbState) (f : ReqField) (w : JsonVal)
    (hpres : getReq f data = some w) (hfalsy : truthyVal w = false)
    (hpartner : ∃ p ∈ ds.partners, p.id = partnerId) :
    (POST (some u) partnerId data ds).1.status = 400 ∧
      fieldName f ∈ missingFields data ∧
      (POST (some u) partnerId data ds).1.body =
        .error ("Missing required fields: " ++
          String.intercalate ", " (missingFields data)) ∧
      POST (some u) partnerId data ds = POST (some u) partnerId (setReq f none data) ds := by
  obtain ⟨q, hq⟩ := partner_find_some partnerId ds hpartner
  have hfb : truthy (getReq f data) = false := by
    rw [hpres]; exact hfalsy
  have h1 := post_validation_failed u partnerId data ds q hq
    (validation_cond_of_falsy data f hfb)
  have hfb2 : truthy (getReq f (setReq f none data)) = false := by
    rw [getReq_setReq_same]; rfl
  have h2 := post_validation_failed u partnerId (setReq f none data) ds q hq
    (validation_cond_of_falsy (setReq f none data) f hfb2)
  refine ⟨by rw [h1], (mem_missingFields_iff data f).mpr hfb, by rw [h1], ?_⟩
  rw [h1, h2, missingFields_setReq_none f data w hpres hfalsy]

/-- Witness for C9: a body whose brand is the empty string gets a 400
listing brand as missing. -/
theorem c9_witness :
    (POST (some "u") "p1" falsyBody db0).1.status = 400 ∧
      fieldName .brand ∈ missingFields falsyBody := by
  have h := c9_falsy_field_treated_missing "u" "p1" falsyBody db0 .brand (.str "")
    rfl rfl (by decide)
  exact ⟨h.1, h.2.1⟩

/-- C10: the endpoint neither defaults nor validates capacity — on a
successful POST the persisted capacity is parseInt of the submitted value,
which is NaN when capacity is absent or a string with no leading integer,
and changing capacity to any value never changes the response status. -/
theorem c10_capacity_not_validated (userId : Option String) (partnerId : String)
    (data : ReqBody) (ds ds2 : DbState) (v : Vehicle)
    (h : POST userId partnerId data ds = ({ body := .vehicle v, status := 200 }, ds2))
    (hcap : data.capacity = none ∨
      ∃ s, data.capacity = some (.str s) ∧ noLeadingInt s = true) :
    v.capacity = parseIntJS data.capacity ∧
      parseIntJS data.capacity = none ∧
      ∀ c, (POST userId partnerId { data with capacity := c } ds).1.status = 200 := by
  obtain ⟨⟨u, hu⟩, ⟨q, hq⟩, hb, hm, hy, hl, hnone, hv, -⟩ :=
    post_success_inversion _ _ _ _ _ _ h
  subst hv
  subst hu
  refine ⟨rfl, ?_, ?_⟩
  · rcases hcap with h0 | ⟨s, hs, hnl⟩
    · rw [h0]; rfl
    · rw [hs]; simp [parseIntJS, parseIntStr_eq_none s hnl]
  · intro c
    have hcompute := post_success_compute u partnerId { data with capacity := c } ds q
      hq hb hm hy hl hnone
    rw [hcompute]

/-- Witness for C10: the fixture body has no capacity field; the created
record's capacity is parseInt of the absent value, which is NaN. -/
theorem c10_witness :
    (mkVehicle "p1" noCapBody db0).capacity = parseIntJS noCapBody.capacity ∧
      parseIntJS noCapBody.capacity = none := by
  have h := c10_capacity_not_validated (some "u") "p1" noCapBody db0 _ _ rfl (Or.inl rfl)
  exact ⟨h.1, h.2.1⟩

/-- C7: the form's plate-format predicate accepts exactly the strings made
of two uppercase letters, a hyphen, three digits, a hyphen and two uppercase
letters; and the automatic plate lookup fires only when this predicate holds
on the current plate, the domestic-plate toggle is on, and no further input
change arrives within the fixed quiet period after the last keystroke. -/
theorem c7_plate_format_and_debounce :
    (∀ s : String, isFrenchPlateFormat s = true ↔ PlatePatternSpec s) ∧
      (∀ (trace : List FormEvent) (i : Nat) (ev : FormEvent),
        trace.get? i = some ev → lookupFiresAt trace i = true →
          PlatePatternSpec ev.licensePlate ∧ ev.isFrenchPlate = true ∧
            ∀ nxt, trace.get? (i + 1) = some nxt →
              ev.time + DEBOUNCE_DELAY ≤ nxt.time) := by
  refine ⟨plate_format_iff, ?_⟩
  intro trace i ev hev hfire
  unfold lookupFiresAt at hfire
  rw [hev] at hfire
  simp only [Bool.and_eq_true] at hfire
  obtain ⟨hcond, hrest⟩ := hfire
  unfold effectCondition at hcond
  simp only [Bool.and_eq_true] at hcond
  obtain ⟨⟨htog, -⟩, hfmt⟩ := hcond
  refine ⟨(plate_format_iff _).mp hfmt, htog, ?_⟩
  intro nxt hnxt
  rw [hnxt] at hrest
  simpa using hrest

/-- Witness for C7: in a one-event trace whose plate is AB-123-CD with the
toggle on, the lookup fires and the fired event indeed matches the pattern
with the toggle on. -/
theorem c7_witness :
    PlatePatternSpec (FormEvent.mk 0 "AB-123-CD" true).licensePlate ∧
      (FormEvent.mk 0 "AB-123-CD" true).isFrenchPlate = true := by
  have h := c7_plate_format_and_debounce.2 [⟨0, "AB-123-CD", true⟩] 0
    ⟨0, "AB-123-CD", true⟩ rfl (by decide)
  exact ⟨h.1, h.2.1⟩

end FleetApi
